import Mathlib

/-!
# Verification of the voice-task orchestrator (`src/ui.py`)

Shallow embedding of the orchestration logic of `ui.py`:
`transcribe_audio`, `run_agent_task`, `send_message` and the two branches of
`on_voice_click`.  External collaborators (the `PhoneAgent`, the ASR HTTP
service, the sound device, the filesystem) are modelled as oracles passed as
parameters; every `add_log` call in the source becomes one `LogMsg` value in
an emitted trace, and every call into the agent becomes one `AgentCall`
value, so that ordering and call-count claims can be stated exactly.

Python exceptions raised by a collaborator are modelled as `Except.error` /
explicit failure constructors of the corresponding oracle; the source's
`try/except` blocks become the `match`es that turn those errors into logged
events, mirroring the code structure line by line.
-/

/-- Python's `str.strip()`: drop leading and trailing whitespace.
(`Char.isWhitespace` covers space, tab, CR, LF — the whitespace the claims
exercise.) -/
def pyStrip (s : String) : String :=
  String.mk (((s.data.dropWhile Char.isWhitespace).reverse.dropWhile
      Char.isWhitespace).reverse)

/-- One UI log line, one constructor per `add_log` call site of `ui.py`:
* `listening`       — `"🎤 Listening..."` (line 155)
* `transcribingMsg` — `"⏳ Transcribing..."` (line 175)
* `transcribed t`   — `"✨ {text}"` (line 179)
* `you t`           — `"You: {task}"` (line 101)
* `starting t`      — `"Starting: {task}"` (line 82)
* `thinkingPrompt`  — the fixed string `"Thinking..."` (line 85)
* `thinking n`      — `"💭 {step_result.thinking}"` (line 88)
* `acting n`        — `"🎯 {step_result.action}"` (line 89)
* `done m`          — `"✅ {step_result.message}"` (line 92)
* `errorMsg e`      — `"❌ Error: {e}"` (lines 94, 158, 184)
* `asrError e`      — `"ASR Error: {e}"` (line 78)
* `failedMsg`       — `"❌ Failed."` (line 182) -/
inductive LogMsg where
  | listening
  | transcribingMsg
  | transcribed (text : String)
  | you (task : String)
  | starting (task : String)
  | thinkingPrompt
  | thinking (note : String)
  | acting (note : String)
  | done (message : String)
  | errorMsg (e : String)
  | asrError (e : String)
  | failedMsg
  deriving DecidableEq, Repr

/-- The spec's `TaskEvent` tagged variant (spec §3). -/
inductive TaskEvent where
  | Started (taskText : String)
  | Listening
  | Transcribing
  | TranscriptionFailed (reason : String)
  | Thinking (note : String)
  | Acting (note : String)
  | StepFailed (reason : String)
  | Finished (message : String)
  | TaskFailed (reason : String)
  deriving DecidableEq, Repr

/-- Abstraction map from the code's log lines to the spec's `TaskEvent`s.
`"🎤 Listening..."`, `"⏳ Transcribing..."`, `"Starting: t"`, `"💭 n"`,
`"🎯 n"`, `"✅ m"` are the code's realisations of `Listening`,
`Transcribing`, `Started`, `Thinking(note)`, `Acting(note)`,
`Finished(message)`.  `"ASR Error: e"` and `"❌ Failed."` are transcription
failures; `"❌ Error: e"` in the agent/device paths is a task failure.
Three log lines are pure UI presentation with no counterpart in the spec's
§3 event vocabulary and map to `none`: the `"You: t"` echo of the input,
the `"✨ t"` display of the raw transcription inside the input field, and
the fixed progress string `"Thinking..."` which precedes the first step and
carries no step note (the spec's `Thinking(note)` always carries
`step_result.thinking`). -/
def toEvent : LogMsg → Option TaskEvent
  | .listening => some .Listening
  | .transcribingMsg => some .Transcribing
  | .starting t => some (.Started t)
  | .thinking n => some (.Thinking n)
  | .acting n => some (.Acting n)
  | .done m => some (.Finished m)
  | .asrError e => some (.TranscriptionFailed e)
  | .failedMsg => some (.TranscriptionFailed "Failed.")
  | .errorMsg e => some (.TaskFailed e)
  | .transcribed _ => none
  | .you _ => none
  | .thinkingPrompt => none

/-- `agent.step`'s return value (`StepResult` of the phone-agent contract):
a thinking note, an action note, a finished flag and a final message. -/
structure StepResult where
  thinking : String
  action : String
  finished : Bool
  message : String
  deriving DecidableEq, Repr

/-- One observable call into the `PhoneAgent`: `agent.reset()` or
`agent.step(task?)` (`none` = called with no argument). -/
inductive AgentCall where
  | reset
  | step (task : Option String)
  deriving DecidableEq, Repr

/-- The step loop of `run_agent_task` (ui.py lines 86–91).  `arg` is the
argument of the next `agent.step` call (`some task` for the first call,
`none` afterwards); `outcomes` is the oracle listing the successive results
of the step calls, `Except.error e` meaning the call raised.  Returns the
log lines emitted, the agent calls made, and whether the loop terminated
(`false` iff the oracle was exhausted before a terminal outcome, i.e. the
modelled prefix of the run is incomplete).

* a raising step call is caught by the surrounding `except` which logs
  `"❌ Error: {e}"` and returns (line 93–94);
* on a normal result the loop logs `"💭 thinking"` then `"🎯 action"`, and
  if `finished` is set breaks and logs `"✅ message"` (lines 88–92);
* otherwise it calls `agent.step()` again with no argument (line 91). -/
def stepLoop : Option String → List (Except String StepResult) →
    List LogMsg × List AgentCall × Bool
  | _, [] => ([], [], false)
  | arg, .error e :: _ => ([.errorMsg e], [.step arg], true)
  | arg, .ok r :: rest =>
    if r.finished then
      ([.thinking r.thinking, .acting r.action, .done r.message],
        [.step arg], true)
    else
      let (evs, calls, fin) := stepLoop none rest
      (.thinking r.thinking :: .acting r.action :: evs,
        .step arg :: calls, fin)

/-- `run_agent_task(task)` (ui.py lines 81–94): logs `"Starting: task"`,
then inside `try`: `agent.reset()`, logs `"Thinking..."`, and runs the step
loop with the first `agent.step(task)` call.  Any exception from the agent
is caught and logged as `"❌ Error: {e}"` (so the coroutine always returns
normally). -/
def run_agent_task (task : String) (outcomes : List (Except String StepResult)) :
    List LogMsg × List AgentCall × Bool :=
  let (evs, calls, fin) := stepLoop (some task) outcomes
  (.starting task :: .thinkingPrompt :: evs, .reset :: calls, fin)

/-- `send_message` (ui.py lines 96–102) as a function of the input field's
current value.  Strips the value; if blank, returns immediately (input left
unchanged, nothing logged, no task started).  Otherwise clears the field,
logs `"You: task"` and spawns `run_agent_task(task)`.  Returns the new
input-field value, the log lines emitted synchronously, and the spawned
task text (if any).  Note the function reads no recording/running state. -/
def send_message (inputValue : String) : String × List LogMsg × Option String :=
  let task := pyStrip inputValue
  if task = "" then (inputValue, [], none)
  else ("", [.you task], some task)

/-- `send_message` together with the spawned `run_agent_task` run (ui.py
line 102's `page.run_task`): returns the new input value, all log lines,
all agent calls, and whether the spawned run (if any) completed. -/
def submitTask (inputValue : String) (outcomes : List (Except String StepResult)) :
    String × List LogMsg × List AgentCall × Bool :=
  match send_message inputValue with
  | (v, evs, none) => (v, evs, [], true)
  | (v, evs, some task) =>
    let (aevs, calls, fin) := run_agent_task task outcomes
    (v, evs ++ aevs, calls, fin)

/-- Oracle for one transcription attempt: what the filesystem / HTTP stack /
JSON decoder does for a given (normalised) file path.
* `openError e` — `open(file_path, "rb")` raised (file missing/unreadable);
* `postError e` — `requests.post` raised (network failure);
* `httpError e` — `response.raise_for_status()` raised (non-2xx, e.g. a 401
  authorization failure);
* `jsonError e` — `response.json()` raised (decoding failure);
* `ok t` — a 2xx JSON response whose `"text"` field is `t` (`none` =
  field missing). -/
inductive AsrOutcome where
  | openError (e : String)
  | postError (e : String)
  | httpError (e : String)
  | jsonError (e : String)
  | ok (text : Option String)
  deriving DecidableEq, Repr

/-- ui.py line 72: strip a leading `file://` scheme from the path. -/
def normPath (p : String) : String :=
  if p.startsWith "file://" then p.drop 7 else p

/-- The `try` block of `transcribe_audio` (ui.py lines 72–76): normalise the
path, open the file, POST it once, raise on non-2xx, decode the JSON and
return `response.json().get("text", "")`.  Returns the number of HTTP
requests issued and either the returned text or the raised exception.
Note: the returned text is **not** stripped here. -/
def transcribe_try (file_path : String) (asr : String → AsrOutcome) :
    Nat × Except String String :=
  match asr (normPath file_path) with
  | .openError e => (0, .error e)
  | .postError e => (1, .error e)
  | .httpError e => (1, .error e)
  | .jsonError e => (1, .error e)
  | .ok t => (1, .ok (t.getD ""))

/-- `transcribe_audio(file_path)` (ui.py lines 66–79).  An empty path
returns `""` immediately (line 67) without touching the network.  Otherwise
the `try` body runs; any exception is caught, logged as
`"ASR Error: {e}"`, and `""` is returned (lines 77–79).  Returns the number
of HTTP requests issued, the log lines emitted, and the returned string. -/
def transcribe_audio (file_path : String) (asr : String → AsrOutcome) :
    Nat × List LogMsg × String :=
  if file_path = "" then (0, [], "")
  else
    match transcribe_try file_path asr with
    | (n, .ok t) => (n, [], t)
    | (n, .error e) => (n, [.asrError e], "")

/-- The temp-file path `os.path.join(tempfile.gettempdir(), "voice_input.wav")`
(ui.py line 172); some fixed non-empty path. -/
def temp_path : String := "/tmp/voice_input.wav"

/-- Observable outcome of the stop branch of `on_voice_click`. -/
structure VoiceStopResult where
  /-- log lines emitted, in order -/
  events : List LogMsg
  /-- calls made into the agent -/
  calls : List AgentCall
  /-- number of `transcribe_audio` invocations (0 or 1) -/
  transcribeCalls : Nat
  /-- number of HTTP requests issued to the ASR service -/
  httpRequests : Nat
  /-- `state["is_recording"]` afterwards -/
  is_recording : Bool
  /-- `input_field.value` afterwards -/
  inputValue : String
  /-- the spawned agent run (if any) completed -/
  taskDone : Bool
  deriving DecidableEq, Repr

/-- The stop branch of `on_voice_click` (ui.py lines 160–187), entered with
`state["is_recording"]` true.  The stream is stopped and closed and
`is_recording` set to `False`; then (line 171) only if `recording_data` is
non-empty: the chunks are concatenated and written to `temp_path`,
`"⏳ Transcribing..."` is logged, `transcribe_audio(temp_path)` is awaited,
and if the returned text is non-empty (Python truthiness, line 177) the
input field is set to it, `"✨ text"` is logged and `send_message` runs;
an empty text logs `"❌ Failed."`.  With zero chunks nothing at all is
logged and no transcription happens.  `chunks` is `recording_data` at stop
time; `inputValue` is the input field's value on entry. -/
def on_voice_click_stop (inputValue : String) (chunks : List (List Int))
    (asr : String → AsrOutcome) (outcomes : List (Except String StepResult)) :
    VoiceStopResult :=
  if chunks = [] then
    ⟨[], [], 0, 0, false, inputValue, true⟩
  else
    let (n, tevs, text) := transcribe_audio temp_path asr
    if text ≠ "" then
      let (v, sevs, calls, fin) := submitTask text outcomes
      ⟨.transcribingMsg :: tevs ++ .transcribed text :: sevs,
        calls, 1, n, false, v, fin⟩
    else
      ⟨.transcribingMsg :: tevs ++ [.failedMsg], [], 1, n, false, inputValue, true⟩

/-- The start branch of `on_voice_click` (ui.py lines 144–159), entered with
`state["is_recording"]` false.  The device query / stream opening may raise
(`Except.error e`): then the exception is caught, `"❌ Error: {e}"` is
logged and `is_recording` reset to `False`.  On success (`Except.ok rate`)
the stream starts and `"🎤 Listening..."` is logged.  Returns the log lines
and `state["is_recording"]` afterwards. -/
def on_voice_click_start (device : Except String Nat) : List LogMsg × Bool :=
  match device with
  | .error e => ([.errorMsg e], false)
  | .ok _ => ([.listening], true)

/-- A complete voice-originated task: a successful start click (device
opens) followed by a stop click. -/
def voiceTask (inputValue : String) (chunks : List (List Int))
    (asr : String → AsrOutcome) (outcomes : List (Except String StepResult)) :
    VoiceStopResult :=
  let r := on_voice_click_stop inputValue chunks asr outcomes
  { r with events := .listening :: r.events }

/-- The mutable state of `ui.py` relevant to operation sequencing: the
`state["is_recording"]` flag, the number of `run_agent_task` coroutines
currently in flight, and the input field's value. -/
structure CodeState where
  is_recording : Bool
  inFlight : Nat
  inputValue : String
  deriving DecidableEq, Repr

/-- The spec's `OrchestratorState` variant (spec §3). -/
inductive SpecState where
  | Idle
  | Recording
  | Transcribing
  | Running
  deriving DecidableEq, Repr

/-- Abstraction of the code's state to the spec's `OrchestratorState`:
recording wins, else a task in flight means `Running`, else `Idle`. -/
def specStateOf (s : CodeState) : SpecState :=
  if s.is_recording then .Recording
  else if 0 < s.inFlight then .Running
  else .Idle

/-- `send_message` as an operation on the code's state: it reads only
`input_field.value` — no recording or in-flight check appears anywhere in
ui.py lines 96–102 — and when the stripped text is non-blank it
unconditionally spawns a new `run_agent_task` coroutine
(`page.run_task`, line 102), incrementing the in-flight count. -/
def send_message_op (s : CodeState) : CodeState × List LogMsg × Option String :=
  match send_message s.inputValue with
  | (v, evs, none) => ({ s with inputValue := v }, evs, none)
  | (v, evs, some task) =>
    ({ s with inputValue := v, inFlight := s.inFlight + 1 }, evs, some task)

/-! ## Helper lemmas on the step loop -/

/-- Log lines emitted for a list of non-final step results: one
`"💭 thinking"` / `"🎯 action"` pair per result. -/
def pairLogs (rs : List StepResult) : List LogMsg :=
  rs.flatMap fun r => [.thinking r.thinking, .acting r.action]

/-- The spec-level `Thinking`/`Acting` pairs for a list of step results. -/
def pairsOf (rs : List StepResult) : List TaskEvent :=
  rs.flatMap fun r => [.Thinking r.thinking, .Acting r.action]

lemma filterMap_pairLogs (rs : List StepResult) :
    (pairLogs rs).filterMap toEvent = pairsOf rs := by
  induction rs with
  | nil => rfl
  | cons r rs ih =>
    simp [pairLogs, pairsOf, List.flatMap_cons, List.filterMap_append] at ih ⊢
    simpa [toEvent] using ih

lemma stepLoop_success (arg : Option String) (rs : List StepResult)
    (last : StepResult) (rest : List (Except String StepResult))
    (hrs : ∀ r ∈ rs, r.finished = false) (hl : last.finished = true) :
    stepLoop arg (rs.map .ok ++ .ok last :: rest) =
      (pairLogs rs ++
         [.thinking last.thinking, .acting last.action, .done last.message],
       .step arg :: List.replicate rs.length (.step none), true) := by
  induction rs generalizing arg with
  | nil => simp [stepLoop, hl, pairLogs]
  | cons r rs ih =>
    have hr : r.finished = false := hrs r (by simp)
    have h' : ∀ x ∈ rs, x.finished = false := fun x hx => hrs x (by simp [hx])
    simp [stepLoop, hr, ih none h', pairLogs, List.flatMap_cons,
      List.replicate_succ]

lemma stepLoop_error (arg : Option String) (rs : List StepResult)
    (e : String) (rest : List (Except String StepResult))
    (hrs : ∀ r ∈ rs, r.finished = false) :
    stepLoop arg (rs.map .ok ++ .error e :: rest) =
      (pairLogs rs ++ [.errorMsg e],
       .step arg :: List.replicate rs.length (.step none), true) := by
  induction rs generalizing arg with
  | nil => simp [stepLoop, pairLogs]
  | cons r rs ih =>
    have hr : r.finished = false := hrs r (by simp)
    have h' : ∀ x ∈ rs, x.finished = false := fun x hx => hrs x (by simp [hx])
    simp [stepLoop, hr, ih none h', pairLogs, List.flatMap_cons,
      List.replicate_succ]

lemma temp_path_ne : temp_path ≠ "" := by decide

/-! ## The claims -/

/-- Claim C1: for every successful task, the emitted `TaskEvent` sequence
(the projection of the UI log under `toEvent`) is exactly: `Listening` and
`Transcribing` when and only when the task originated from voice, then
`Started(task)`, one or more `(Thinking, Acting)` pairs in that order, then
`Finished(message)`, with no other `TaskEvent` interleaved.  `rs` are the
step results before the final one, `last` the result with
`finished = true`; the first conjunct is the voice-originated task, the
second the typed submission of the same text. -/
theorem task_event_sequence_success (v0 text : String)
    (chunks : List (List Int)) (hc : chunks ≠ [])
    (rs : List StepResult) (last : StepResult)
    (hrs : ∀ r ∈ rs, r.finished = false) (hl : last.finished = true)
    (htext : text ≠ "") (htask : pyStrip text ≠ "") :
    (voiceTask v0 chunks (fun _ => .ok (some text))
        (rs.map .ok ++ [.ok last])).events.filterMap toEvent
      = .Listening :: .Transcribing :: .Started (pyStrip text) ::
          (pairsOf (rs ++ [last]) ++ [.Finished last.message]) ∧
    (submitTask text (rs.map .ok ++ [.ok last])).2.1.filterMap toEvent
      = .Started (pyStrip text) ::
          (pairsOf (rs ++ [last]) ++ [.Finished last.message]) := by
  have hsl := stepLoop_success (some (pyStrip text)) rs last [] hrs hl
  constructor
  · simp [voiceTask, on_voice_click_stop, hc, transcribe_audio, transcribe_try,
      temp_path_ne, submitTask, send_message, htask, htext, run_agent_task,
      hsl, List.filterMap_append, toEvent, filterMap_pairLogs, pairsOf,
      List.flatMap_append]
  · simp [submitTask, send_message, htask, run_agent_task, hsl,
      List.filterMap_append, toEvent, filterMap_pairLogs, pairsOf,
      List.flatMap_append]

/-- Witness for C1 at the spec's §8 scenario. -/
theorem task_event_sequence_success_witness :
    (voiceTask "" [[0]] (fun _ => .ok (some "turn on the light"))
        ([StepResult.mk "plan" "toggle" false ""].map .ok ++
          [.ok (StepResult.mk "verify" "none" true "done")])).events.filterMap
        toEvent
      = .Listening :: .Transcribing :: .Started (pyStrip "turn on the light") ::
          (pairsOf ([⟨"plan", "toggle", false, ""⟩] ++
            [⟨"verify", "none", true, "done"⟩]) ++ [.Finished "done"]) :=
  (task_event_sequence_success "" "turn on the light" [[0]] (by decide)
    [⟨"plan", "toggle", false, ""⟩] ⟨"verify", "none", true, "done"⟩
    (by decide) (by decide) (by decide) (by decide)).1

/-- Claim C2, counterexample: with one task in flight (abstract state
`Running`, not `Idle`), `send_message` still accepts a non-blank submission:
it emits a `"You: hello"` log line and spawns a second concurrent
`run_agent_task` (in-flight count 2), instead of rejecting it — `ui.py`'s
`send_message` performs no state check at all, and no
`InvalidTransitionError` exists anywhere in the code. -/
theorem submit_not_rejected_while_running :
    specStateOf ⟨false, 1, "hello"⟩ = SpecState.Running ∧
    send_message_op ⟨false, 1, "hello"⟩
      = (⟨false, 2, ""⟩, [.you "hello"], some "hello") := by decide

/-- Claim C2, amended: `send_message` validates no state: from every code
state — recording, task in flight, or idle — a non-blank input spawns a new
task (incrementing the in-flight count, so events of task N+1 can be
emitted while task N is still running) and only a blank input is a no-op. -/
theorem send_message_ignores_state (s : CodeState) :
    (pyStrip s.inputValue ≠ "" →
      send_message_op s
        = ({ s with inputValue := "", inFlight := s.inFlight + 1 },
           [.you (pyStrip s.inputValue)], some (pyStrip s.inputValue))) ∧
    (pyStrip s.inputValue = "" → send_message_op s = (s, [], none)) := by
  constructor
  · intro h
    simp [send_message_op, send_message, h]
  · intro h
    simp [send_message_op, send_message, h]

/-- Witness for the amended C2: a non-blank submission is accepted even
while recording with five tasks in flight. -/
theorem send_message_ignores_state_witness :
    send_message_op ⟨true, 5, " hi "⟩
      = (⟨true, 6, ""⟩, [.you "hi"], some "hi") :=
  (send_message_ignores_state ⟨true, 5, " hi "⟩).1 (by decide)

/-- Claim C3: every error raised inside a stage is caught at that stage's
boundary and converted into a terminal failure log line — an agent step
that raises ends the run with `"❌ Error: e"` (the run still returning
normally, `true`), a transcription-service failure ends the stop handler
with `"ASR Error: e"` and `"❌ Failed."` with the recording flag cleared
and no agent call made, and a device-open failure logs `"❌ Error: e"` and
clears the recording flag — so after any failure the orchestrator is idle
again and the next task needs no process restart. -/
theorem stage_failures_become_terminal_events (e task v0 : String)
    (rs : List StepResult) (hrs : ∀ r ∈ rs, r.finished = false)
    (chunks : List (List Int)) (hc : chunks ≠ [])
    (rest : List (Except String StepResult)) :
    run_agent_task task (rs.map .ok ++ .error e :: rest)
      = (.starting task :: .thinkingPrompt :: (pairLogs rs ++ [.errorMsg e]),
         .reset :: .step (some task) :: List.replicate rs.length (.step none),
         true) ∧
    on_voice_click_stop v0 chunks (fun _ => .httpError e) rest
      = ⟨[.transcribingMsg, .asrError e, .failedMsg], [], 1, 1, false, v0,
          true⟩ ∧
    on_voice_click_start (.error e) = ([.errorMsg e], false) := by
  refine ⟨?_, ?_, rfl⟩
  · simp [run_agent_task, stepLoop_error (some task) rs e rest hrs]
  · simp [on_voice_click_stop, hc, transcribe_audio, transcribe_try,
      temp_path_ne]

/-- Witness for C3: a raising first step, a failing transcription service
and a failing device, each converted to a failure event. -/
theorem stage_failures_become_terminal_events_witness :
    run_agent_task "t" [.error "boom"]
      = ([.starting "t", .thinkingPrompt, .errorMsg "boom"],
         [.reset, .step (some "t")], true) ∧
    on_voice_click_stop "" [[0]] (fun _ => .httpError "boom") []
      = ⟨[.transcribingMsg, .asrError "boom", .failedMsg], [], 1, 1, false,
          "", true⟩ ∧
    on_voice_click_start (.error "boom") = ([.errorMsg "boom"], false) :=
  stage_failures_become_terminal_events "boom" "t" "" [] (by decide) [[0]]
    (by decide) []

/-- Claim C4: the step loop first resets the agent, the first `step` call
passes the task text and every later call passes none, each step result is
logged as `"💭 thinking"` then `"🎯 action"` in that order, and the loop
stops exactly at the first result with `finished = true`, logging
`"✅ message"` — any further oracle outcomes `rest` are never consumed. -/
theorem step_loop_contract (task : String) (rs : List StepResult)
    (last : StepResult) (hrs : ∀ r ∈ rs, r.finished = false)
    (hl : last.finished = true) (rest : List (Except String StepResult)) :
    run_agent_task task (rs.map .ok ++ .ok last :: rest)
      = (.starting task :: .thinkingPrompt ::
           (pairLogs rs ++ [.thinking last.thinking, .acting last.action,
             .done last.message]),
         .reset :: .step (some task) :: List.replicate rs.length (.step none),
         true) := by
  simp [run_agent_task, stepLoop_success (some task) rs last rest hrs hl]

/-- Witness for C4: two steps, the second finished; a third available
outcome is not consumed. -/
theorem step_loop_contract_witness :
    run_agent_task "t"
        [.ok ⟨"p", "a", false, ""⟩, .ok ⟨"v", "n", true, "done"⟩,
         .ok ⟨"x", "y", false, ""⟩]
      = ([.starting "t", .thinkingPrompt, .thinking "p", .acting "a",
          .thinking "v", .acting "n", .done "done"],
         [.reset, .step (some "t"), .step none], true) :=
  step_loop_contract "t" [⟨"p", "a", false, ""⟩] ⟨"v", "n", true, "done"⟩
    (by decide) (by decide) [.ok ⟨"x", "y", false, ""⟩]

/-- Claim C5, counterexample: on an authorization failure the stop handler
emits two `TranscriptionFailed`-projected events (`"ASR Error: ..."` from
`transcribe_audio`'s handler, then `"❌ Failed."` from `on_voice_click`),
not exactly one; and an empty/missing text field makes `transcribe_audio`
return the very same value (`""`) as an authorization failure, so the
orchestrator cannot distinguish the two cases from the return value. -/
theorem transcription_failures_collapsed :
    ((on_voice_click_stop "" [[0]] (fun _ => .httpError "401 Unauthorized")
        []).events.filterMap toEvent).countP
        (fun ev => match ev with
          | TaskEvent.TranscriptionFailed _ => true
          | _ => false) = 2 ∧
    (transcribe_audio temp_path (fun _ => .ok none)).2.2
      = (transcribe_audio temp_path
          (fun _ => .httpError "401 Unauthorized")).2.2 := by decide

/-- Claim C5, amended: an empty or missing text field yields the return
value `""`, the same value produced after a network or authorization
failure (no distinct `emptyResult` kind exists); an authorization failure
makes the stop handler emit two failure events — `"ASR Error: e"` then
`"❌ Failed."` — and the agent is never called (no reset, no step) for that
task. -/
theorem auth_failure_two_events_no_step (e v0 : String)
    (chunks : List (List Int)) (hc : chunks ≠ [])
    (outcomes : List (Except String StepResult)) :
    (on_voice_click_stop v0 chunks (fun _ => .httpError e) outcomes).events
      = [.transcribingMsg, .asrError e, .failedMsg] ∧
    (on_voice_click_stop v0 chunks (fun _ => .httpError e) outcomes).calls
      = [] ∧
    (transcribe_audio temp_path (fun _ => .ok none)).2.2 = "" ∧
    (transcribe_audio temp_path (fun _ => .ok (some ""))).2.2 = "" := by
  refine ⟨?_, ?_, rfl, rfl⟩ <;>
    simp [on_voice_click_stop, hc, transcribe_audio, transcribe_try,
      temp_path_ne]

/-- Witness for the amended C5 at a concrete 401 failure. -/
theorem auth_failure_two_events_no_step_witness :
    (on_voice_click_stop "v" [[1]] (fun _ => .httpError "401") []).events
      = [.transcribingMsg, .asrError "401", .failedMsg] ∧
    (on_voice_click_stop "v" [[1]] (fun _ => .httpError "401") []).calls
      = [] ∧
    (transcribe_audio temp_path (fun _ => .ok none)).2.2 = "" ∧
    (transcribe_audio temp_path (fun _ => .ok (some ""))).2.2 = "" :=
  auth_failure_two_events_no_step "401" "v" [[1]] (by decide) []

/-- Claim C6, counterexample: on success `transcribe_audio` returns the
service's text unmodified — for the response text `" hi "` it returns
`" hi "`, not the trimmed `"hi"` (stripping happens only later, in
`send_message`). -/
theorem transcribe_returns_untrimmed :
    transcribe_audio temp_path (fun _ => .ok (some " hi "))
      = (1, [], " hi ") ∧
    pyStrip " hi " = "hi" ∧ (" hi " : String) ≠ "hi" := by decide

/-- Claim C6, amended: for every non-empty file path, the transcribe
operation issues exactly one request and, on success, returns the service's
text exactly as received (untrimmed). -/
theorem transcribe_one_request_raw_text (p t : String) (hp : p ≠ "") :
    transcribe_audio p (fun _ => .ok (some t)) = (1, [], t) := by
  simp [transcribe_audio, transcribe_try, hp]

/-- Witness for the amended C6. -/
theorem transcribe_one_request_raw_text_witness :
    transcribe_audio "a.wav" (fun _ => .ok (some " ok ")) = (1, [], " ok ") :=
  transcribe_one_request_raw_text "a.wav" " ok " (by decide)

/-- Claim C7: stopping a recording that captured zero chunks never invokes
`transcribe_audio` (hence no HTTP request), emits no log line at all (in
particular no `Transcribing` event), makes no agent call, and clears the
recording flag — the orchestrator is simply idle again. -/
theorem zero_chunks_no_transcription (v0 : String) (asr : String → AsrOutcome)
    (outcomes : List (Except String StepResult)) :
    on_voice_click_stop v0 [] asr outcomes
      = ⟨[], [], 0, 0, false, v0, true⟩ := rfl

/-- Claim C8: submitting a blank or whitespace-only text is a silent no-op:
the state (input field included) is unchanged, zero log lines are emitted,
no task is spawned and the agent is neither reset nor stepped. -/
theorem blank_submit_silent_noop (s : CodeState)
    (hv : pyStrip s.inputValue = "")
    (outcomes : List (Except String StepResult)) :
    send_message_op s = (s, [], none) ∧
    submitTask s.inputValue outcomes = (s.inputValue, [], [], true) := by
  constructor
  · simp [send_message_op, send_message, hv]
  · simp [submitTask, send_message, hv]

/-- Witness for C8 at a whitespace-only input. -/
theorem blank_submit_silent_noop_witness :
    send_message_op ⟨false, 0, "   "⟩ = (⟨false, 0, "   "⟩, [], none) ∧
    submitTask "   " [] = ("   ", [], [], true) :=
  blank_submit_silent_noop ⟨false, 0, "   "⟩ (by decide) []

/-- Claim C9: when the transcription service returns a non-empty but
whitespace-only text, the stop handler logs the transcription-success line
`"✨ t"` carrying that text (and stores it in the input field) but starts
no task: no `Started` line, no agent call, and the handler completes with
the recording flag cleared, ready for the next operation. -/
theorem whitespace_transcription_no_task (v0 t : String) (ht : t ≠ "")
    (hw : pyStrip t = "") (chunks : List (List Int)) (hc : chunks ≠ [])
    (outcomes : List (Except String StepResult)) :
    on_voice_click_stop v0 chunks (fun _ => .ok (some t)) outcomes
      = ⟨[.transcribingMsg, .transcribed t], [], 1, 1, false, t, true⟩ := by
  simp [on_voice_click_stop, hc, transcribe_audio, transcribe_try,
    temp_path_ne, submitTask, send_message, hw, ht]

/-- Witness for C9 at the single-space transcription. -/
theorem whitespace_transcription_no_task_witness :
    on_voice_click_stop "x" [[0]] (fun _ => .ok (some " ")) []
      = ⟨[.transcribingMsg, .transcribed " "], [], 1, 1, false, " ", true⟩ :=
  whitespace_transcription_no_task "x" " " (by decide) (by decide) [[0]]
    (by decide) []

/-- Claim C10: `transcribe_audio` is total — every failure of a
collaborator is absorbed (the catch-all handler logs and returns `""`
rather than re-raising).  An empty file path returns `""` immediately with
zero requests; a missing/unreadable file (open fails) returns `""` with
zero requests; a network, HTTP-status, or JSON-decoding failure returns
`""` after the single attempted request. -/
theorem transcribe_total_never_raises (p e : String) (hp : p ≠ "")
    (asr : String → AsrOutcome) :
    transcribe_audio "" asr = (0, [], "") ∧
    transcribe_audio p (fun _ => .openError e) = (0, [.asrError e], "") ∧
    transcribe_audio p (fun _ => .postError e) = (1, [.asrError e], "") ∧
    transcribe_audio p (fun _ => .httpError e) = (1, [.asrError e], "") ∧
    transcribe_audio p (fun _ => .jsonError e) = (1, [.asrError e], "") := by
  refine ⟨rfl, ?_, ?_, ?_, ?_⟩ <;> simp [transcribe_audio, transcribe_try, hp]

/-- Witness for C10 at a concrete path and error. -/
theorem transcribe_total_never_raises_witness :
    transcribe_audio "" (fun _ => AsrOutcome.ok none) = (0, [], "") ∧
    transcribe_audio "b.wav" (fun _ => .openError "ENOENT")
      = (0, [.asrError "ENOENT"], "") ∧
    transcribe_audio "b.wav" (fun _ => .postError "ENOENT")
      = (1, [.asrError "ENOENT"], "") ∧
    transcribe_audio "b.wav" (fun _ => .httpError "ENOENT")
      = (1, [.asrError "ENOENT"], "") ∧
    transcribe_audio "b.wav" (fun _ => .jsonError "ENOENT")
      = (1, [.asrError "ENOENT"], "") :=
  transcribe_total_never_raises "b.wav" "ENOENT" (by decide)
    (fun _ => AsrOutcome.ok none)
